import Mathlib

/-!
Shallow embedding of the `khushimalik04/nodejs-backend-project` repository
(two Python source files) and proofs of the specification claims.

Source files embedded:
* `src/lambda/lambda_function.py` — the Notifier: an AWS Lambda handler that
  iterates over the `Records` of an SQS event, parses each record's JSON body,
  and sends one SES email per record that carries a truthy `email` field,
  catching every per-record exception and finally returning a fixed
  `{statusCode: 200, body: json.dumps("All emails processed.")}` value.
* `src/lambda/sqs-email-sender/utils/otp.py` — the OTP generator:
  `generate_otp(length=6)` draws `length` uniformly random decimal digits, and
  `create_otp_record(user_id, otp_type="email_verification")` builds a record
  with a fresh UUID, the code, a creation time `datetime.now(IST)` where
  `IST = timezone(timedelta(hours=5, minutes=30))`, and an expiry
  `created_at + timedelta(minutes=10)`.

Ambient effects of the Python code (the SES network call's outcome, the random
number generator, the UUID source and the system clock) are passed as explicit
parameters, so every definition is a computable Lean function.
-/

set_option autoImplicit false

namespace NodejsBackend

/-- A JSON value, as produced by Python's `json.loads`.  Numbers are modelled
as integers (the repository only ever moves string fields around, so the
number representation is irrelevant to every claim). -/
inductive JsonVal where
  | null
  | bool (b : Bool)
  | num (n : Int)
  | str (s : String)
  | arr (elems : List JsonVal)
  | obj (fields : List (String × JsonVal))

/-- One record of the SQS event, characterised by what `record["body"]`
followed by `json.loads` yields.  `badRecord` models a record on which
`record["body"]` itself raises (the record is not a mapping, or has no
`"body"` key); `badJson` models a body on which `json.loads` raises;
`parsed v` models a body whose JSON parse is `v`. -/
inductive RecMsg where
  | badRecord
  | badJson
  | parsed (v : JsonVal)

/-- The Lambda event.  `records = none` models an event mapping with no
`"Records"` key (so `event.get("Records", [])` falls back to `[]`);
`records = some l` models `"Records"` bound to the list `l`. -/
structure PyEvent where
  records : Option (List RecMsg)

/-- Python dict lookup `d.get(k)` on a parsed JSON object: the value of the
first binding of `k`, or `none` when the key is absent. -/
def jget (kvs : List (String × JsonVal)) (k : String) : Option JsonVal :=
  match kvs with
  | [] => none
  | (k2, v) :: rest => if k2 = k then some v else jget rest k

/-- Python truthiness of `message_body.get("email")`: `None` (key absent or
JSON null), `False`, `0`, the empty string, the empty list and the empty dict
are falsy; everything else is truthy.  Mirrors `if not to_email`. -/
def truthy : Option JsonVal → Bool
  | none => false
  | some JsonVal.null => false
  | some (JsonVal.bool b) => b
  | some (JsonVal.num n) => n != 0
  | some (JsonVal.str s) => s != ""
  | some (JsonVal.arr elems) => !elems.isEmpty
  | some (JsonVal.obj fields) => !fields.isEmpty

/-- The hard-coded SES sender: `Source="mitrashubhojit2005@gmail.com"`. -/
def SOURCE_EMAIL : String := "mitrashubhojit2005@gmail.com"

/-- Default used by `message_body.get("subject", ...)`. -/
def DEFAULT_SUBJECT : String := "Test Email from AWS Lambda (Python)"

/-- Default used by `message_body.get("message", ...)`. -/
def DEFAULT_BODY : String := "Hello! This is a test email from Lambda via SES (Python)."

/-- The arguments of one `ses.send_email` call made by the handler. -/
structure SendCall where
  source : String
  toAddresses : List JsonVal
  subject : JsonVal
  bodyText : JsonVal

/-- Outcome of one `ses.send_email` call: a response carrying a `MessageId`,
or a raised exception. -/
inductive SendResult where
  | ok (messageId : String)
  | err (e : String)

/-- The SES client modelled as an oracle: the outcome of the `n`-th send call
of the invocation. -/
def SendOracle : Type := Nat → SendResult

/-- The body of the per-record `try:` block of `lambda_handler`, for the
record `m`, when `k` send calls have already been made.  Returns the list of
`ses.send_email` calls this record caused (a call that raises has still been
made) together with the control outcome of the block: `Except.ok ()` when the
block ran to completion (including the `continue` for a falsy email), or
`Except.error e` when an exception was raised inside it. -/
def recordTry (oracle : SendOracle) (k : Nat) (m : RecMsg) :
    List SendCall × Except String Unit :=
  match m with
  | RecMsg.badRecord => ([], Except.error "KeyError: body")
  | RecMsg.badJson => ([], Except.error "JSONDecodeError")
  | RecMsg.parsed (JsonVal.obj kvs) =>
      let to_email := jget kvs "email"
      let subject := (jget kvs "subject").getD (JsonVal.str DEFAULT_SUBJECT)
      let body := (jget kvs "message").getD (JsonVal.str DEFAULT_BODY)
      if truthy to_email then
        let call : SendCall :=
          { source := SOURCE_EMAIL
            toAddresses := [to_email.getD JsonVal.null]
            subject := subject
            bodyText := body }
        match oracle k with
        | SendResult.ok _ => ([call], Except.ok ())
        | SendResult.err e => ([call], Except.error e)
      else ([], Except.ok ())
  | RecMsg.parsed _ => ([], Except.error "AttributeError: get")

/-- The `for record in event.get("Records", []):` loop with each iteration's
`try ... except Exception` collapsed to its effect trace: every exception of
`recordTry` is caught (only logged), so the loop just concatenates the send
calls of each record, threading the send-call counter. -/
def sendCallsFrom (oracle : SendOracle) (k : Nat) : List RecMsg → List SendCall
  | [] => []
  | m :: rest =>
      let r := recordTry oracle k m
      r.1 ++ sendCallsFrom oracle (k + r.1.length) rest

/-- The same loop in the exception monad, with the `except Exception as e:`
clause written out: an `Except.error` escaping `recordTry` is caught and the
loop continues; an exception anywhere else would propagate as `Except.error`. -/
def runRecordsE (oracle : SendOracle) (k : Nat) :
    List RecMsg → Except String (List SendCall)
  | [] => Except.ok []
  | m :: rest =>
      let r := recordTry oracle k m
      match r.2 with
      | Except.ok _ =>
          (runRecordsE oracle (k + r.1.length) rest).map (fun cs => r.1 ++ cs)
      | Except.error _ =>
          (runRecordsE oracle (k + r.1.length) rest).map (fun cs => r.1 ++ cs)

/-- `json.dumps` on a string containing no character that needs escaping:
wraps it in double quotes.  (The handler only ever serialises the constant
`"All emails processed."`, which has no escapes.) -/
def json_dumps_string (s : String) : String := "\"" ++ s ++ "\""

/-- The dict returned by `lambda_handler`. -/
structure HandlerResult where
  statusCode : Nat
  body : String
deriving DecidableEq

/-- The value `lambda_handler` returns. -/
def lambda_handler (ev : PyEvent) (oracle : SendOracle) : HandlerResult :=
  let _calls := sendCallsFrom oracle 0 (ev.records.getD [])
  { statusCode := 200, body := json_dumps_string "All emails processed." }

/-- `lambda_handler` in the exception monad: the loop runs with its
per-record catch, then the fixed dict is returned.  An uncaught exception
would surface as `Except.error`. -/
def lambda_handlerE (ev : PyEvent) (oracle : SendOracle) :
    Except String HandlerResult :=
  (runRecordsE oracle 0 (ev.records.getD [])).map
    (fun _ => { statusCode := 200, body := json_dumps_string "All emails processed." })

/-- The full trace of `ses.send_email` calls of one handler invocation. -/
def sendCalls (ev : PyEvent) (oracle : SendOracle) : List SendCall :=
  sendCallsFrom oracle 0 (ev.records.getD [])

/-! ## The OTP generator (`src/lambda/sqs-email-sender/utils/otp.py`) -/

/-- `string.digits` as a list of characters. -/
def string_digits : List Char := ['0', '1', '2', '3', '4', '5', '6', '7', '8', '9']

/-- `generate_otp(length=6)`, i.e. `''.join(random.choices(string.digits,
k=length))`.  The random source is passed explicitly: `rand i` is the `i`-th
draw of `random.choices`, an index into `string.digits`. -/
def generate_otp (rand : Nat → Fin 10) (length : Nat := 6) : String :=
  String.mk ((List.range length).map (fun i => string_digits.getD (rand i).val '0'))

/-- An aware Python `datetime`: an instant (microseconds since the epoch,
`datetime` resolution) together with the fixed UTC offset of its `tzinfo`,
in minutes. -/
structure PyDatetime where
  usec : Int
  tzOffsetMin : Int
deriving DecidableEq

/-- `IST = timezone(timedelta(hours=5, minutes=30))`: a fixed UTC+5:30
offset, as minutes. -/
def IST : Int := 5 * 60 + 30

/-- A `timedelta(minutes=m)`, in microseconds. -/
def timedelta_minutes (m : Int) : Int := m * 60 * 1000000

/-- `datetime + timedelta`: shifts the instant, keeps the `tzinfo`. -/
def datetime_add (d : PyDatetime) (delta : Int) : PyDatetime :=
  { usec := d.usec + delta, tzOffsetMin := d.tzOffsetMin }

/-- `datetime.now(tz)`: the current clock instant, stamped with `tz`. -/
def datetime_now (clock : Int) (tzOffsetMin : Int) : PyDatetime :=
  { usec := clock, tzOffsetMin := tzOffsetMin }

/-- The dict returned by `create_otp_record`. -/
structure OtpRecord where
  id : String
  user_id : String
  code : String
  type : String
  expires_at : PyDatetime
  created_at : PyDatetime
deriving DecidableEq

/-- `create_otp_record(user_id, otp_type="email_verification")`.  The ambient
inputs the Python code reads — the random stream behind `random.choices`, the
value of `uuid.uuid4()` and the clock instant behind `datetime.now(IST)` —
are explicit parameters. -/
def create_otp_record (rand : Nat → Fin 10) (uuid4 : String) (clock : Int)
    (user_id : String) (otp_type : String := "email_verification") : OtpRecord :=
  let code := generate_otp rand
  let otp_id := uuid4
  let now_ist := datetime_now clock IST
  let expires_at := datetime_add now_ist (timedelta_minutes 10)
  let created_at := now_ist
  { id := otp_id
    user_id := user_id
    code := code
    type := otp_type
    expires_at := expires_at
    created_at := created_at }

/-! ## Test fixtures -/

/-- An SES oracle on which every send call succeeds. -/
def okOracle : SendOracle := fun _ => SendResult.ok "msg-1"

/-- Parsed body `{"email": "a@x.com", "subject": "Hi"}` (no `message` key). -/
def kvsFull : List (String × JsonVal) :=
  [("email", JsonVal.str "a@x.com"), ("subject", JsonVal.str "Hi")]

/-- Parsed body `{"subject": "No email"}` (no `email` key). -/
def kvsNoEmail : List (String × JsonVal) :=
  [("subject", JsonVal.str "No email")]

/-- Parsed body `{"email": "a@x.com", "subject": null, "message": ""}`:
both optional keys present but with falsy values. -/
def kvsFalsy : List (String × JsonVal) :=
  [("email", JsonVal.str "a@x.com"), ("subject", JsonVal.null),
   ("message", JsonVal.str "")]

/-! ## Helper lemmas -/

/-- The exception-monad loop always succeeds and computes exactly the plain
send-call trace: every exception of a loop iteration is caught by the
per-record `except` clause. -/
lemma runRecordsE_eq_ok (oracle : SendOracle) :
    ∀ (ms : List RecMsg) (k : Nat),
      runRecordsE oracle k ms = Except.ok (sendCallsFrom oracle k ms)
  | [], _ => rfl
  | m :: rest, k => by
      cases h : (recordTry oracle k m).2 <;>
        simp [runRecordsE, sendCallsFrom, h, Except.map,
          runRecordsE_eq_ok oracle rest]

/-- Every character drawn from `string.digits` is a decimal digit. -/
lemma digit_of_fin : ∀ d : Fin 10, (string_digits.getD d.val '0').isDigit = true := by
  decide

/-- `generate_otp` returns exactly `length` characters. -/
lemma generate_otp_length (rand : Nat → Fin 10) (length : Nat) :
    (generate_otp rand length).length = length := by
  simp [generate_otp, String.length]

/-! ## Claims -/

/-- Claim C1: for every event, after processing all of its messages the
handler returns `{statusCode: 200, body: json.dumps("All emails processed.")}`
unconditionally — the same value whether every message succeeded, some
failed, or the batch was empty (the result does not depend on the event or on
the send outcomes at all). -/
theorem notifier_returns_fixed_ack (ev : PyEvent) (oracle : SendOracle) :
    lambda_handler ev oracle =
      { statusCode := 200, body := json_dumps_string "All emails processed." } :=
  rfl

/-- Claim C2: for every message whose body parses to an object with a
non-empty string `email`, the handler makes exactly one send call, with the
fixed sender, destination `[email]`, subject `subject`-or-default and
plain-text body `message`-or-default. -/
theorem notifier_send_call_params (oracle : SendOracle) (k : Nat)
    (kvs : List (String × JsonVal)) (e : String)
    (he : jget kvs "email" = some (JsonVal.str e)) (hne : e ≠ "") :
    (recordTry oracle k (RecMsg.parsed (JsonVal.obj kvs))).1 =
      [{ source := SOURCE_EMAIL
         toAddresses := [JsonVal.str e]
         subject := (jget kvs "subject").getD (JsonVal.str DEFAULT_SUBJECT)
         bodyText := (jget kvs "message").getD (JsonVal.str DEFAULT_BODY) }] := by
  cases horc : oracle k <;>
    simp [recordTry, he, truthy, horc, bne_iff_ne, hne]

/-- Witness for C2: the spec's scenario message
`{"email": "a@x.com", "subject": "Hi"}` produces exactly one send call. -/
theorem notifier_send_call_params_witness :
    (recordTry okOracle 0 (RecMsg.parsed (JsonVal.obj kvsFull))).1 =
      [{ source := SOURCE_EMAIL
         toAddresses := [JsonVal.str "a@x.com"]
         subject := (jget kvsFull "subject").getD (JsonVal.str DEFAULT_SUBJECT)
         bodyText := (jget kvsFull "message").getD (JsonVal.str DEFAULT_BODY) }] :=
  notifier_send_call_params okOracle 0 kvsFull "a@x.com" rfl (by decide)

/-- Claim C3: a message whose parsed body lacks the `email` key, or binds it
to the empty string, causes no send call, finishes its iteration normally
(the `continue` path, no exception), and leaves the processing of the rest of
the batch unchanged. -/
theorem notifier_skips_missing_email (oracle : SendOracle) (k : Nat)
    (kvs : List (String × JsonVal)) (rest : List RecMsg)
    (h : jget kvs "email" = none ∨ jget kvs "email" = some (JsonVal.str "")) :
    (recordTry oracle k (RecMsg.parsed (JsonVal.obj kvs))).1 = [] ∧
    (recordTry oracle k (RecMsg.parsed (JsonVal.obj kvs))).2 = Except.ok () ∧
    sendCallsFrom oracle k (RecMsg.parsed (JsonVal.obj kvs) :: rest) =
      sendCallsFrom oracle k rest := by
  rcases h with h | h <;>
    refine ⟨?_, ?_, ?_⟩ <;>
    simp [recordTry, sendCallsFrom, h, truthy]

/-- Witness for C3: the spec's scenario message `{"subject": "No email"}`
is skipped and the rest of the batch (here one full message) is processed
as if it were the whole batch. -/
theorem notifier_skips_missing_email_witness :
    (recordTry okOracle 0 (RecMsg.parsed (JsonVal.obj kvsNoEmail))).1 = [] ∧
    (recordTry okOracle 0 (RecMsg.parsed (JsonVal.obj kvsNoEmail))).2 = Except.ok () ∧
    sendCallsFrom okOracle 0
        (RecMsg.parsed (JsonVal.obj kvsNoEmail) :: [RecMsg.parsed (JsonVal.obj kvsFull)]) =
      sendCallsFrom okOracle 0 [RecMsg.parsed (JsonVal.obj kvsFull)] :=
  notifier_skips_missing_email okOracle 0 kvsNoEmail
    [RecMsg.parsed (JsonVal.obj kvsFull)] (Or.inl rfl)

/-- Claim C4: a message whose body is not parseable as JSON raises inside the
`try` block (`json.loads` fails), causes no send call, and — the exception
being caught — leaves the processing of the rest of the batch and the
handler's overall (non-raising) outcome unchanged. -/
theorem notifier_skips_malformed_body (oracle : SendOracle) (k : Nat)
    (rest : List RecMsg) :
    (recordTry oracle k RecMsg.badJson).1 = [] ∧
    (recordTry oracle k RecMsg.badJson).2 = Except.error "JSONDecodeError" ∧
    sendCallsFrom oracle k (RecMsg.badJson :: rest) = sendCallsFrom oracle k rest ∧
    lambda_handlerE { records := some (RecMsg.badJson :: rest) } oracle =
      lambda_handlerE { records := some rest } oracle := by
  refine ⟨rfl, rfl, ?_, ?_⟩
  · simp [sendCallsFrom, recordTry]
  · simp [lambda_handlerE, runRecordsE_eq_ok, sendCallsFrom, recordTry]

/-- Claim C5: for every input event and every behaviour of the SES client —
including one that raises on every call — the handler, run in the exception
monad, never surfaces an exception: it returns `Except.ok` with the fixed
success acknowledgment. -/
theorem notifier_never_raises (ev : PyEvent) (oracle : SendOracle) :
    lambda_handlerE ev oracle =
      Except.ok { statusCode := 200, body := json_dumps_string "All emails processed." } := by
  unfold lambda_handlerE
  rw [runRecordsE_eq_ok]
  rfl

/-- Claim C6: every `create_otp_record` call returns a record with
`expires_at = created_at + timedelta(minutes=10)` exactly, `created_at` equal
to the clock instant at generation time stamped with the fixed UTC+5:30
zone. -/
theorem create_otp_record_expiry_invariant (rand : Nat → Fin 10)
    (uuid4 : String) (clock : Int) (uid ty : String) :
    (create_otp_record rand uuid4 clock uid ty).expires_at =
      datetime_add (create_otp_record rand uuid4 clock uid ty).created_at
        (timedelta_minutes 10) ∧
    (create_otp_record rand uuid4 clock uid ty).expires_at.usec -
      (create_otp_record rand uuid4 clock uid ty).created_at.usec =
        timedelta_minutes 10 ∧
    (create_otp_record rand uuid4 clock uid ty).created_at = datetime_now clock IST ∧
    (create_otp_record rand uuid4 clock uid ty).created_at.tzOffsetMin = IST :=
  ⟨rfl, by simp [create_otp_record, datetime_now, datetime_add, timedelta_minutes],
   rfl, rfl⟩

/-- Claim C7: `generate_otp rand length` is a string of exactly `length`
characters, each a decimal digit, whatever the random draws; and the default
call made by `create_otp_record` yields a 6-character digit code. -/
theorem generate_otp_digits_shape (rand : Nat → Fin 10) (length : Nat)
    (uuid4 : String) (clock : Int) (uid ty : String) :
    (generate_otp rand length).length = length ∧
    ((generate_otp rand length).data.all Char.isDigit) = true ∧
    (create_otp_record rand uuid4 clock uid ty).code = generate_otp rand 6 ∧
    (create_otp_record rand uuid4 clock uid ty).code.length = 6 := by
  refine ⟨generate_otp_length rand length, ?_, rfl, generate_otp_length rand 6⟩
  refine List.all_eq_true.mpr ?_
  intro c hc
  rw [show (generate_otp rand length).data
      = (List.range length).map (fun i => string_digits.getD (rand i).val '0') from rfl,
    List.mem_map] at hc
  obtain ⟨i, -, rfl⟩ := hc
  exact digit_of_fin (rand i)

/-- Counterexample to claim C8 as stated: the OTP operations are not
deterministic in their declared arguments alone.  Two runs of
`generate_otp` with the same argument (`length = 6`) but different ambient
random streams return different codes, and two runs of `create_otp_record`
with the same arguments but different `uuid.uuid4()` outcomes return
different records. -/
theorem otp_not_pure_counterexample :
    generate_otp (fun _ => (0 : Fin 10)) 6 ≠ generate_otp (fun _ => (1 : Fin 10)) 6 ∧
    create_otp_record (fun _ => (0 : Fin 10)) "id-a" 0 "u" ≠
      create_otp_record (fun _ => (0 : Fin 10)) "id-b" 0 "u" := by
  constructor <;> decide

/-- Claim C8 (amended): the OTP operations perform no I/O and no mutation
in the embedding, and their result is determined by their arguments together
with the ambient inputs they consume — the first six random draws, the UUID
value and the clock reading; two runs agreeing on those agree on the whole
record, even if the random streams differ beyond the consumed prefix. -/
theorem otp_ambient_determinism (rand rand2 : Nat → Fin 10) (uuid4 : String)
    (clock : Int) (uid ty : String)
    (h : ∀ i, i < 6 → rand i = rand2 i) :
    create_otp_record rand uuid4 clock uid ty =
      create_otp_record rand2 uuid4 clock uid ty := by
  have hmap : (List.range 6).map (fun i => string_digits.getD (rand i).val '0') =
      (List.range 6).map (fun i => string_digits.getD (rand2 i).val '0') := by
    apply List.map_congr_left
    intro i hi
    rw [h i (List.mem_range.mp hi)]
  simp only [create_otp_record, generate_otp]
  rw [hmap]

/-- Witness for the amended C8: two random streams that agree on the six
consumed draws but differ afterwards yield the same record. -/
theorem otp_ambient_determinism_witness :
    create_otp_record (fun _ => (0 : Fin 10)) "uuid-1" 0 "alice" "t" =
      create_otp_record (fun i => if i < 6 then (0 : Fin 10) else 5) "uuid-1" 0 "alice" "t" :=
  otp_ambient_determinism _ _ _ _ _ _ (fun i hi => by simp [hi])

/-- Claim C9: an event without a `"Records"` key, or with an empty
`"Records"` list, causes zero send calls and still yields the fixed 200
acknowledgment. -/
theorem notifier_empty_batch_ack (ev : PyEvent) (oracle : SendOracle)
    (h : ev.records = none ∨ ev.records = some []) :
    sendCalls ev oracle = [] ∧
    lambda_handler ev oracle =
      { statusCode := 200, body := json_dumps_string "All emails processed." } := by
  rcases h with h | h <;> exact ⟨by simp [sendCalls, h, sendCallsFrom], rfl⟩

/-- Witness for C9: the event with no `"Records"` key. -/
theorem notifier_empty_batch_ack_witness :
    sendCalls { records := none } okOracle = [] ∧
    lambda_handler { records := none } okOracle =
      { statusCode := 200, body := json_dumps_string "All emails processed." } :=
  notifier_empty_batch_ack { records := none } okOracle (Or.inl rfl)

/-- Claim C10: the subject and message defaults are applied only when the key
is absent: if the parsed body binds `subject` (or `message`) to JSON null or
to the empty string, that very value — not the default string — is what the
send call carries. -/
theorem notifier_falsy_fields_verbatim (oracle : SendOracle) (k : Nat)
    (kvs : List (String × JsonVal)) (e : String)
    (he : jget kvs "email" = some (JsonVal.str e)) (hne : e ≠ "") :
    ∃ c, (recordTry oracle k (RecMsg.parsed (JsonVal.obj kvs))).1 = [c] ∧
      (∀ v, jget kvs "subject" = some v → (v = JsonVal.null ∨ v = JsonVal.str "") →
        c.subject = v ∧ c.subject ≠ JsonVal.str DEFAULT_SUBJECT) ∧
      (∀ v, jget kvs "message" = some v → (v = JsonVal.null ∨ v = JsonVal.str "") →
        c.bodyText = v ∧ c.bodyText ≠ JsonVal.str DEFAULT_BODY) := by
  refine ⟨{ source := SOURCE_EMAIL
            toAddresses := [(jget kvs "email").getD JsonVal.null]
            subject := (jget kvs "subject").getD (JsonVal.str DEFAULT_SUBJECT)
            bodyText := (jget kvs "message").getD (JsonVal.str DEFAULT_BODY) }, ?_, ?_, ?_⟩
  · cases horc : oracle k <;>
      simp [recordTry, he, truthy, horc, bne_iff_ne, hne]
  · intro v hv hval
    rw [hv]
    rcases hval with rfl | rfl
    · exact ⟨rfl, by simp [DEFAULT_SUBJECT]⟩
    · refine ⟨rfl, ?_⟩
      simp only [Option.getD_some, ne_eq, JsonVal.str.injEq, DEFAULT_SUBJECT]
      decide
  · intro v hv hval
    rw [hv]
    rcases hval with rfl | rfl
    · exact ⟨rfl, by simp [DEFAULT_BODY]⟩
    · refine ⟨rfl, ?_⟩
      simp only [Option.getD_some, ne_eq, JsonVal.str.injEq, DEFAULT_BODY]
      decide

/-- Witness for C10: the message
`{"email": "a@x.com", "subject": null, "message": ""}` produces a send call
carrying the null subject and the empty body verbatim. -/
theorem notifier_falsy_fields_verbatim_witness :
    ∃ c, (recordTry okOracle 0 (RecMsg.parsed (JsonVal.obj kvsFalsy))).1 = [c] ∧
      (∀ v, jget kvsFalsy "subject" = some v → (v = JsonVal.null ∨ v = JsonVal.str "") →
        c.subject = v ∧ c.subject ≠ JsonVal.str DEFAULT_SUBJECT) ∧
      (∀ v, jget kvsFalsy "message" = some v → (v = JsonVal.null ∨ v = JsonVal.str "") →
        c.bodyText = v ∧ c.bodyText ≠ JsonVal.str DEFAULT_BODY) :=
  notifier_falsy_fields_verbatim okOracle 0 kvsFalsy "a@x.com" rfl (by decide)

end NodejsBackend
